import Mathlib

/-!
Verification of the Deno voice-agent relay server (`server.ts`).

The server is shallowly embedded: each TypeScript function that the claims
mention is translated into an executable Lean definition operating on explicit
state. JavaScript `Map` objects become association lists with `Map` semantics
(unique keys: `set` updates in place, `delete` removes, `get` returns the first
match), `Date.now()` becomes an explicit `now : Nat` argument (milliseconds),
randomness becomes an explicit byte-list argument, and the `jose` JWT library
is modelled abstractly by a token datatype carrying the signed claims and the
signing key, with `jwtVerify` throwing (returning `Except.error`) exactly in
the documented failure cases (malformed input, wrong key, elapsed expiry).
JavaScript truthiness is modelled faithfully where it matters: `!expiry` is
true for a stored expiry of `0`, and `!nonce` is true for the empty string.
-/

namespace VoiceAgent

/-! ## Nonce store (`sessionNonces`, `generateNonce`, `consumeNonce`, sweep) -/

/-- The `sessionNonces : Map<string, number>` map: nonce value to expiry
instant in milliseconds.  Association list with unique keys. -/
abbrev NonceStore := List (String × Nat)

/-- `Map.prototype.get`: the value at the first matching key, if any. -/
def storeGet (store : NonceStore) (k : String) : Option Nat :=
  (store.find? (fun p => p.1 == k)).map Prod.snd

/-- `Map.prototype.delete`: remove the entry with the given key. -/
def storeDelete (store : NonceStore) (k : String) : NonceStore :=
  store.filter (fun p => p.1 != k)

/-- `Map.prototype.set`: update the value in place if the key is present,
otherwise append the new entry at the end (insertion order). -/
def storeSet (store : NonceStore) (k : String) (v : Nat) : NonceStore :=
  if store.any (fun p => p.1 == k) then
    store.map (fun p => if p.1 == k then (k, v) else p)
  else
    store ++ [(k, v)]

/-- `NONCE_TTL_MS = 5 * 60 * 1000` -/
def NONCE_TTL_MS : Nat := 5 * 60 * 1000

/-- `consumeNonce(nonce)` from server.ts, with the store and the current time
explicit.  Returns the boolean result together with the updated store.
The JavaScript guard `if (!expiry) return false` is falsy not only for a
missing entry but also for a stored expiry of `0`, and in that second case the
entry is not deleted; the model keeps that behaviour. -/
def consumeNonce (now : Nat) (store : NonceStore) (nonce : String) :
    Bool × NonceStore :=
  match storeGet store nonce with
  | none => (false, store)
  | some expiry =>
    if expiry == 0 then (false, store)
    else (decide (now < expiry), storeDelete store nonce)

/-- The 60-second background sweep: delete every entry whose expiry has
passed (`now >= expiry`), keeping exactly the entries with `now < expiry`. -/
def sweepNonces (now : Nat) (store : NonceStore) : NonceStore :=
  store.filter (fun p => decide (now < p.2))

theorem storeGet_eq_none_iff (store : NonceStore) (k : String) :
    storeGet store k = none ↔ ∀ p ∈ store, p.1 ≠ k := by
  unfold storeGet
  rw [Option.map_eq_none', List.find?_eq_none]
  constructor
  · intro h p hp
    have := h p hp
    simpa using this
  · intro h p hp
    simpa using h p hp

theorem storeGet_filter_none (store : NonceStore) (k : String)
    (f : String × Nat → Bool) (h : storeGet store k = none) :
    storeGet (store.filter f) k = none := by
  rw [storeGet_eq_none_iff] at h ⊢
  intro p hp
  exact h p (List.mem_of_mem_filter hp)

theorem storeGet_storeDelete (store : NonceStore) (k : String) :
    storeGet (storeDelete store k) k = none := by
  rw [storeGet_eq_none_iff]
  intro p hp
  have := List.of_mem_filter hp
  simpa using this

/-- C1: `consumeNonce` returns true iff the nonce is present with an expiry
strictly later than the current time; a found entry is removed (whatever the
result), an absent value leaves the store unchanged, and once a value has been
consumed every later lookup fails: a second `consumeNonce` on the same value
returns false without touching the store, and neither consuming another value
nor the background sweep can bring a removed value back.  The hypothesis that
every stored expiry is positive is an invariant of the program: entries are
only ever inserted with expiry `now + NONCE_TTL_MS > 0`. -/
theorem consumeNonce_spec (now : Nat) (store : NonceStore) (nonce : String)
    (hpos : ∀ p ∈ store, 0 < p.2) :
    ((consumeNonce now store nonce).1 = true ↔
      ∃ e, storeGet store nonce = some e ∧ now < e)
    ∧ (storeGet store nonce ≠ none →
        (consumeNonce now store nonce).2 = storeDelete store nonce)
    ∧ (storeGet store nonce = none → (consumeNonce now store nonce).2 = store)
    ∧ (∀ now2, consumeNonce now2 (consumeNonce now store nonce).2 nonce =
        (false, (consumeNonce now store nonce).2))
    ∧ (∀ now2 m, storeGet store nonce = none →
        storeGet (consumeNonce now2 store m).2 nonce = none)
    ∧ (∀ now2, storeGet store nonce = none →
        storeGet (sweepNonces now2 store) nonce = none) := by
  refine ⟨?_, ?_, ?_, ?_, ?_, ?_⟩
  · unfold consumeNonce
    cases hget : storeGet store nonce with
    | none => simp [hget]
    | some e =>
      have hepos : 0 < e := by
        have : (store.find? (fun p => p.1 == nonce)).map Prod.snd = some e := hget
        rw [Option.map_eq_some'] at this
        obtain ⟨p, hp, hpe⟩ := this
        have hmem := List.mem_of_find?_eq_some hp
        have := hpos p hmem
        omega
      simp only [hget]
      rw [if_neg (by simpa using Nat.pos_iff_ne_zero.mp hepos)]
      simp only [decide_eq_true_eq]
      constructor
      · intro h; exact ⟨e, rfl, h⟩
      · rintro ⟨e2, he2, hlt⟩
        injection he2 with he2
        omega
  · intro hne
    unfold consumeNonce
    cases hget : storeGet store nonce with
    | none => exact absurd hget hne
    | some e =>
      have hepos : 0 < e := by
        have : (store.find? (fun p => p.1 == nonce)).map Prod.snd = some e := hget
        rw [Option.map_eq_some'] at this
        obtain ⟨p, hp, hpe⟩ := this
        have hmem := List.mem_of_find?_eq_some hp
        have := hpos p hmem
        omega
      simp only
      rw [if_neg (by simpa using Nat.pos_iff_ne_zero.mp hepos)]
  · intro hget
    unfold consumeNonce
    rw [hget]
  · intro now2
    unfold consumeNonce
    cases hget : storeGet store nonce with
    | none => simp [hget]
    | some e =>
      by_cases h0 : e == 0
      · simp only [hget, if_pos h0]
      · simp only [hget, if_neg h0]
        rw [storeGet_storeDelete]
  · intro now2 m hget
    unfold consumeNonce
    cases hm : storeGet store m with
    | none => simpa using hget
    | some e =>
      by_cases h0 : e == 0
      · simp only [if_pos h0]
        exact hget
      · simp only [if_neg h0]
        exact storeGet_filter_none store nonce _ hget
  · intro now2 hget
    exact storeGet_filter_none store nonce _ hget

/-- Witness for C1 at a concrete store: consuming a live nonce succeeds. -/
theorem consumeNonce_spec_witness :
    (consumeNonce 5 [("n", 10)] "n").1 = true :=
  (consumeNonce_spec 5 [("n", 10)] "n" (by decide)).1.mpr
    ⟨10, by decide, by decide⟩

/-! ## Session tokens (`createSessionToken`, `verifySessionToken`)

The `jose` library is modelled abstractly: a JWT is either malformed (any
string that does not parse or whose MAC does not correspond to any key) or a
well-formed token carrying its `iat` and `exp` claims (seconds) together with
the key that produced its HMAC-SHA-256 signature.  `jose.jwtVerify` throws
`JWSSignatureVerificationFailed` when the signature does not match the
verification key and `JWTExpired` when the current time has reached `exp`;
both are modelled as `Except.error`. -/

/-- The encoded `SESSION_SECRET` bytes (`SESSION_SECRET_KEY`). -/
abbrev SecretKey := List Nat

/-- An input to `verifySessionToken`: either garbage or a signed JWT. -/
inductive JoseToken where
  | malformed (raw : String)
  | signed (iat exp : Nat) (key : SecretKey)
deriving DecidableEq, Repr

/-- `jose.jwtVerify(token, key)` at current time `nowSec` (seconds):
throws on malformed input, wrong signature, or elapsed expiry. -/
def jwtVerify (key : SecretKey) (nowSec : Nat) : JoseToken → Except String Unit
  | .malformed _ => .error "JWSInvalid"
  | .signed _ exp k =>
    if k ≠ key then .error "JWSSignatureVerificationFailed"
    else if exp ≤ nowSec then .error "JWTExpired"
    else .ok ()

/-- `JWT_EXPIRY = "1h"`, in seconds as jose resolves it. -/
def JWT_EXPIRY_SEC : Nat := 60 * 60

/-- `createSessionToken()`: signs `\x7b iat \x7d` with the shared secret and
expiry one hour from issuance (`setExpirationTime("1h")`). -/
def createSessionToken (key : SecretKey) (nowSec : Nat) : JoseToken :=
  .signed nowSec (nowSec + JWT_EXPIRY_SEC) key

/-- The body of `verifySessionToken` in the exception monad: the `try` block
runs `jwtVerify` and returns true; the `catch` block returns false.  An
`Except.error` outcome here would mean an exception escaping to the caller. -/
def verifySessionTokenE (key : SecretKey) (nowSec : Nat) (tok : JoseToken) :
    Except String Bool :=
  match jwtVerify key nowSec tok with
  | .ok _ => .ok true
  | .error _ => .ok false

/-- `verifySessionToken(token)`: the boolean the caller observes. -/
def verifySessionToken (key : SecretKey) (nowSec : Nat) (tok : JoseToken) :
    Bool :=
  match verifySessionTokenE key nowSec tok with
  | .ok b => b
  | .error _ => false

theorem verifySessionToken_malformed (key : SecretKey) (nowSec : Nat)
    (raw : String) :
    verifySessionToken key nowSec (JoseToken.malformed raw) = false := rfl

theorem verifySessionToken_signed (key : SecretKey) (nowSec iat exp : Nat)
    (k : SecretKey) :
    verifySessionToken key nowSec (JoseToken.signed iat exp k) =
      (decide (k = key) && decide (nowSec < exp)) := by
  simp only [verifySessionToken, verifySessionTokenE, jwtVerify]
  by_cases hk : k = key
  · by_cases hexp : exp ≤ nowSec
    · rw [if_neg (by simp [hk]), if_pos hexp]
      simp [hk, Nat.not_lt.mpr hexp]
    · rw [if_neg (by simp [hk]), if_neg hexp]
      simp [hk, Nat.lt_of_not_le hexp]
  · rw [if_pos hk]
    simp [hk]

/-- C6: `verifySessionToken` never lets an exception escape (its body in the
exception monad always ends in `Except.ok`), and the boolean it returns is
true exactly when the token is well formed, signed with the current shared
secret, and unexpired; malformed input, a wrong signature, and an elapsed
expiry all give false. -/
theorem verifySessionToken_total_iff (key : SecretKey) (nowSec : Nat)
    (tok : JoseToken) :
    (∃ b, verifySessionTokenE key nowSec tok = .ok b)
    ∧ (verifySessionToken key nowSec tok = true ↔
        ∃ iat exp, tok = .signed iat exp key ∧ nowSec < exp) := by
  constructor
  · unfold verifySessionTokenE
    cases jwtVerify key nowSec tok with
    | ok u => exact ⟨true, rfl⟩
    | error e => exact ⟨false, rfl⟩
  · cases tok with
    | malformed raw =>
      rw [verifySessionToken_malformed]
      constructor
      · intro h; cases h
      · rintro ⟨iat, exp, h, -⟩; cases h
    | signed iat exp k =>
      rw [verifySessionToken_signed]
      simp only [Bool.and_eq_true, decide_eq_true_eq]
      constructor
      · rintro ⟨hk, hlt⟩
        exact ⟨iat, exp, by rw [hk], hlt⟩
      · rintro ⟨iat2, exp2, heq, hlt⟩
        injection heq with h1 h2 h3
        exact ⟨h3, by omega⟩

/-- C3: a token minted by `createSessionToken` is accepted by
`verifySessionToken` under the same secret at any time before its one-hour
expiry (in particular immediately), is rejected by a verifier holding a
different secret, and is rejected once the expiry duration has elapsed. -/
theorem createSessionToken_roundtrip (key key2 : SecretKey) (t0 now : Nat) :
    (now < t0 + JWT_EXPIRY_SEC →
      verifySessionToken key now (createSessionToken key t0) = true)
    ∧ (key2 ≠ key →
      verifySessionToken key2 now (createSessionToken key t0) = false)
    ∧ (t0 + JWT_EXPIRY_SEC ≤ now →
      verifySessionToken key now (createSessionToken key t0) = false) := by
  refine ⟨?_, ?_, ?_⟩
  · intro hlt
    show verifySessionToken key now
      (JoseToken.signed t0 (t0 + JWT_EXPIRY_SEC) key) = true
    rw [verifySessionToken_signed]
    simp [hlt]
  · intro hne
    show verifySessionToken key2 now
      (JoseToken.signed t0 (t0 + JWT_EXPIRY_SEC) key) = false
    rw [verifySessionToken_signed]
    simp [Ne.symm hne]
  · intro hge
    show verifySessionToken key now
      (JoseToken.signed t0 (t0 + JWT_EXPIRY_SEC) key) = false
    rw [verifySessionToken_signed]
    have h2 : decide (now < t0 + JWT_EXPIRY_SEC) = false := by
      simp only [decide_eq_false_iff_not]
      omega
    rw [h2, Bool.and_false]

/-- Witness for C3: concrete secrets `[1, 2]` and `[3]`, issuance at time 100:
accepted at time 100 under the same secret, rejected under the other secret,
rejected at time 3700. -/
theorem createSessionToken_roundtrip_witness :
    verifySessionToken [1, 2] 100 (createSessionToken [1, 2] 100) = true
    ∧ verifySessionToken [3] 100 (createSessionToken [1, 2] 100) = false
    ∧ verifySessionToken [1, 2] 3700 (createSessionToken [1, 2] 100) = false :=
  ⟨(createSessionToken_roundtrip [1, 2] [3] 100 100).1 (by decide),
   (createSessionToken_roundtrip [1, 2] [3] 100 100).2.1 (by decide),
   (createSessionToken_roundtrip [1, 2] [3] 100 3700).2.2 (by decide)⟩

/-! ## JavaScript string primitives

`String.prototype.toLowerCase`, `trim`, `split(",")`, `startsWith`, `slice`
are modelled at the character-list level (the inputs involved — header values,
subprotocol entries — are ASCII, where these models agree with JavaScript). -/

/-- ASCII lower-casing of one character. -/
def lowerChar (c : Char) : Char :=
  if 65 ≤ c.toNat ∧ c.toNat ≤ 90 then Char.ofNat (c.toNat + 32) else c

/-- `String.prototype.toLowerCase` on ASCII strings. -/
def jsToLower (s : String) : String := String.mk (s.data.map lowerChar)

/-- JavaScript whitespace characters relevant to `trim` (ASCII range). -/
def isJsWhitespace (c : Char) : Bool :=
  c = ' ' || c = '\t' || c = '\n' || c = '\r' || c = '\x0b' || c = '\x0c'

def trimChars (l : List Char) : List Char :=
  ((l.dropWhile isJsWhitespace).reverse.dropWhile isJsWhitespace).reverse

/-- `String.prototype.trim`. -/
def jsTrim (s : String) : String := String.mk (trimChars s.data)

def splitCommaChars : List Char → List (List Char)
  | [] => [[]]
  | c :: rest =>
    let r := splitCommaChars rest
    if c = ',' then [] :: r
    else
      match r with
      | [] => [[c]]
      | h :: t => (c :: h) :: t

/-- `String.prototype.split(",")`: in particular `"".split(",")` is `[""]`. -/
def jsSplitComma (s : String) : List String :=
  (splitCommaChars s.data).map String.mk

/-- `s.startsWith(pat)`. -/
def jsStartsWith (s pat : String) : Bool := pat.data.isPrefixOf s.data

/-- `s.slice(n)` for a nonnegative index. -/
def jsSlice (s : String) (n : Nat) : String := String.mk (s.data.drop n)

/-! ## The `/api/voice-agent` branch of `handleRequest` -/

/-- Outcome of the `/api/voice-agent` branch of `handleRequest`: HTTP status
of the returned response, whether `Deno.upgradeWebSocket` was called, the
subprotocol passed to it, and whether `handleVoiceAgent` was invoked (which
is what constructs the outbound `WebSocket` to the upstream endpoint). -/
structure UpgradeOutcome where
  status : Nat
  upgraded : Bool
  acceptedProtocol : Option String
  upstreamOpened : Bool
deriving DecidableEq, Repr

/-- The `/api/voice-agent` branch of `handleRequest`, parameterised by the
verification oracle `verify` standing for `verifySessionToken` under the
ambient secret and clock.  `upgradeHeader` and `protocolsHeader` are the
`upgrade` and `sec-websocket-protocol` request headers; a missing header
falls back to `""` exactly as `req.headers.get(...) || ""` does. -/
def handleVoiceAgentUpgrade (verify : String → Bool)
    (upgradeHeader : Option String) (protocolsHeader : Option String) :
    UpgradeOutcome :=
  let upgrade := upgradeHeader.getD ""
  if jsToLower upgrade ≠ "websocket" then
    { status := 426, upgraded := false, acceptedProtocol := none,
      upstreamOpened := false }
  else
    let protocols := protocolsHeader.getD ""
    let protocolList := (jsSplitComma protocols).map jsTrim
    match protocolList.find? (fun p => jsStartsWith p "access_token.") with
    | none =>
      { status := 401, upgraded := false, acceptedProtocol := none,
        upstreamOpened := false }
    | some tokenProto =>
      let jwtToken := jsSlice tokenProto "access_token.".length
      if verify jwtToken then
        { status := 101, upgraded := true, acceptedProtocol := some tokenProto,
          upstreamOpened := true }
      else
        { status := 401, upgraded := false, acceptedProtocol := none,
          upstreamOpened := false }

/-- C2: a WebSocket upgrade request to `/api/voice-agent` whose subprotocol
list contains no `access_token.<token>` entry with a token accepted by the
verifier is answered with status 401, the connection is never upgraded, and
`handleVoiceAgent` (the only caller that opens the outbound upstream
connection) is never invoked. -/
theorem upgrade_unauthorized (verify : String → Bool)
    (upgradeHeader protocolsHeader : Option String)
    (hws : jsToLower (upgradeHeader.getD "") = "websocket")
    (hnone : ∀ p ∈ (jsSplitComma (protocolsHeader.getD "")).map jsTrim,
      jsStartsWith p "access_token." = true →
        verify (jsSlice p "access_token.".length) = false) :
    handleVoiceAgentUpgrade verify upgradeHeader protocolsHeader =
      { status := 401, upgraded := false, acceptedProtocol := none,
        upstreamOpened := false } := by
  simp only [handleVoiceAgentUpgrade]
  rw [if_neg (by simp [hws])]
  cases hfind : ((jsSplitComma (protocolsHeader.getD "")).map jsTrim).find?
      (fun p => jsStartsWith p "access_token.") with
  | none => rfl
  | some tokenProto =>
    have hmem := List.mem_of_find?_eq_some hfind
    have hpref := List.find?_some hfind
    have hv := hnone tokenProto hmem hpref
    simp [hv]

/-- Witness for C2: a well-formed upgrade whose only offered subprotocol
carries a token the verifier rejects is answered 401 without upgrade. -/
theorem upgrade_unauthorized_witness :
    handleVoiceAgentUpgrade (fun _ => false) (some "WebSocket")
      (some "access_token.bad, chat") =
      { status := 401, upgraded := false, acceptedProtocol := none,
        upstreamOpened := false } :=
  upgrade_unauthorized (fun _ => false) (some "WebSocket")
    (some "access_token.bad, chat") (by decide) (by decide)

/-- C8: on successful authentication the upgrade is accepted with the
negotiated subprotocol equal to the very `access_token.<token>` entry the
client offered: the entry found in the client's subprotocol list. -/
theorem upgrade_echoes_subprotocol (verify : String → Bool)
    (upgradeHeader protocolsHeader : Option String) (tokenProto : String)
    (hws : jsToLower (upgradeHeader.getD "") = "websocket")
    (hfind : ((jsSplitComma (protocolsHeader.getD "")).map jsTrim).find?
        (fun p => jsStartsWith p "access_token.") = some tokenProto)
    (hverify : verify (jsSlice tokenProto "access_token.".length) = true) :
    handleVoiceAgentUpgrade verify upgradeHeader protocolsHeader =
      { status := 101, upgraded := true, acceptedProtocol := some tokenProto,
        upstreamOpened := true }
    ∧ tokenProto ∈ (jsSplitComma (protocolsHeader.getD "")).map jsTrim
    ∧ jsStartsWith tokenProto "access_token." = true := by
  refine ⟨?_, List.mem_of_find?_eq_some hfind,
    by have := List.find?_some hfind; simpa using this⟩
  simp only [handleVoiceAgentUpgrade]
  rw [if_neg (by simp [hws]), hfind]
  simp [hverify]

/-- Witness for C8: the offered entry `access_token.tok` is echoed back. -/
theorem upgrade_echoes_subprotocol_witness :
    handleVoiceAgentUpgrade (fun s => s == "tok") (some "websocket")
      (some "chat, access_token.tok") =
      { status := 101, upgraded := true,
        acceptedProtocol := some "access_token.tok", upstreamOpened := true } :=
  (upgrade_echoes_subprotocol (fun s => s == "tok") (some "websocket")
    (some "chat, access_token.tok") "access_token.tok"
    (by decide) (by decide) (by decide)).1

/-! ## `GET /api/session` (`handleGetSession`) -/

/-- The response of `handleGetSession`: HTTP status, the `error.type` and
`error.code` fields of a failure body, and the minted token of a success
body. -/
structure SessionResponse where
  status : Nat
  errType : Option String
  errCode : Option String
  token : Option JoseToken
deriving DecidableEq, Repr

/-- The 403 `INVALID_NONCE` response body of `handleGetSession`. -/
def invalidNonceResponse : SessionResponse :=
  { status := 403, errType := some "AuthenticationError",
    errCode := some "INVALID_NONCE", token := none }

/-- `handleGetSession(req)`.  `requireNonce` is `REQUIRE_NONCE`, `header` is
`req.headers.get("X-Session-Nonce")`, `nowMs` is `Date.now()`.  The guard
`if (!nonce || !consumeNonce(nonce))` short-circuits: with a missing (or
empty, hence falsy) header, `consumeNonce` is not called and the store is
untouched.  `createSessionToken` signs at `nowMs / 1000` seconds. -/
def handleGetSession (requireNonce : Bool) (key : SecretKey) (nowMs : Nat)
    (store : NonceStore) (header : Option String) :
    SessionResponse × NonceStore :=
  if requireNonce then
    match header with
    | none => (invalidNonceResponse, store)
    | some nonce =>
      if nonce = "" then (invalidNonceResponse, store)
      else
        let r := consumeNonce nowMs store nonce
        if r.1 then
          ({ status := 200, errType := none, errCode := none,
             token := some (createSessionToken key (nowMs / 1000)) }, r.2)
        else (invalidNonceResponse, r.2)
  else
    ({ status := 200, errType := none, errCode := none,
       token := some (createSessionToken key (nowMs / 1000)) }, store)

/-- C4: with nonce verification mandatory, a missing `X-Session-Nonce` header
or one whose value `consumeNonce` rejects yields status 403 with
`error.type = "AuthenticationError"` and `error.code = "INVALID_NONCE"`;
a header carrying a nonce that `consumeNonce` accepts yields status 200 with
a freshly minted token, and with nonce verification not mandatory the token
is minted unconditionally.  The hypothesis that the empty string is not a
stored nonce is an invariant of the program: `generateNonce` only ever
returns 32-character strings. -/
theorem handleGetSession_spec (requireNonce : Bool) (key : SecretKey)
    (nowMs : Nat) (store : NonceStore) (header : Option String)
    (hempty : storeGet store "" = none) :
    (requireNonce = true →
      (header = none ∨ ∃ v, header = some v ∧
          (consumeNonce nowMs store v).1 = false) →
      (handleGetSession requireNonce key nowMs store header).1 =
        invalidNonceResponse)
    ∧ (requireNonce = true →
      (∀ v, header = some v → (consumeNonce nowMs store v).1 = true →
        (handleGetSession requireNonce key nowMs store header).1 =
          { status := 200, errType := none, errCode := none,
            token := some (createSessionToken key (nowMs / 1000)) }))
    ∧ (requireNonce = false →
      (handleGetSession requireNonce key nowMs store header).1 =
        { status := 200, errType := none, errCode := none,
          token := some (createSessionToken key (nowMs / 1000)) }) := by
  refine ⟨?_, ?_, ?_⟩
  · rintro hrn (hnone | ⟨v, hv, hfail⟩)
    · subst hrn hnone
      rfl
    · subst hrn hv
      simp only [handleGetSession, if_pos rfl]
      by_cases hv0 : v = ""
      · rw [if_pos hv0]
        simp
      · rw [if_neg hv0]
        simp [hfail]
  · rintro hrn v hv hok
    subst hrn hv
    have hv0 : v ≠ "" := by
      intro h
      subst h
      rw [show consumeNonce nowMs store "" = (false, store) by
        unfold consumeNonce; rw [hempty]] at hok
      cases hok
    simp only [handleGetSession, if_pos rfl]
    rw [if_neg hv0]
    simp [hok]
  · intro hrn
    subst hrn
    rfl

/-- Witness for C4: nonce required and a live stored nonce supplied gives a
200 with a fresh token; the same request without the header gives 403. -/
theorem handleGetSession_spec_witness :
    (handleGetSession true [7] 5000 [("n", 9000)] (some "n")).1 =
      { status := 200, errType := none, errCode := none,
        token := some (createSessionToken [7] 5) }
    ∧ (handleGetSession true [7] 5000 [("n", 9000)] none).1 =
        invalidNonceResponse :=
  ⟨(handleGetSession_spec true [7] 5000 [("n", 9000)] (some "n")
      (by decide)).2.1 rfl "n" rfl (by decide),
   (handleGetSession_spec true [7] 5000 [("n", 9000)] none
      (by decide)).1 rfl (Or.inl rfl)⟩

/-! ## The relay (`handleVoiceAgent` event handlers, `sendError`)

A relay session is a pair of WebSockets.  Each socket is represented by its
`readyState` and each leg by the list of frames sent on it so far.  The five
event handlers installed by `handleVoiceAgent` (client `onmessage`, upstream
`onmessage`, client `onclose`, client `onerror`, upstream `onclose`, upstream
`onerror`) become one step function over events; `WebSocket.prototype.close`
moves a CONNECTING or OPEN socket to CLOSING and is a no-op on a CLOSING or
CLOSED one, and `send` is modelled only through the handlers, which guard
every forward with a `readyState === WebSocket.OPEN` test on the destination
socket. -/

/-- `WebSocket.readyState`. -/
inductive ReadyState where
  | connecting
  | opened
  | closing
  | closed
deriving DecidableEq, Repr

/-- `WebSocket.prototype.close()`. -/
def wsClose : ReadyState → ReadyState
  | .connecting => .closing
  | .opened => .closing
  | .closing => .closing
  | .closed => .closed

/-- The `ErrorMessage` interface of server.ts. -/
structure ErrorMessage where
  type : String
  description : String
  code : String
deriving DecidableEq, Repr

/-- A frame sent on a leg: either relayed opaque data or the JSON encoding of
an `ErrorMessage`. -/
inductive Frame where
  | data (payload : String)
  | errorFrame (msg : ErrorMessage)
deriving DecidableEq, Repr

/-- `sendError(socket, error, code)`: appends the JSON error frame to the
frames sent on the socket exactly when the socket is OPEN, and otherwise
leaves them untouched.  A total function: no exception is raised. -/
def sendError (socketState : ReadyState) (sent : List Frame)
    (message code : String) : List Frame :=
  if socketState == .opened then
    sent ++ [Frame.errorFrame { type := "Error", description := message,
                                code := code }]
  else sent

/-- State of one relay session after `handleVoiceAgent` has installed its
handlers: the two `readyState`s and the frames sent on each leg. -/
structure RelayState where
  client : ReadyState
  upstream : ReadyState
  toUpstream : List Frame
  toClient : List Frame
deriving DecidableEq, Repr

/-- The events the installed handlers react to. -/
inductive RelayEvent where
  | clientMessage (payload : String)
  | upstreamMessage (payload : String)
  | clientClose
  | clientError
  | upstreamClose (code : Nat)
  | upstreamError
deriving DecidableEq, Repr

/-- One handler invocation of `handleVoiceAgent`:
`clientSocket.onmessage` forwards to the upstream socket only when its
`readyState` is OPEN; `deepgramWs.onmessage` forwards to the client socket
only when its `readyState` is OPEN; `clientSocket.onclose` and
`clientSocket.onerror` call `deepgramWs.close()`; `deepgramWs.onclose`
calls `clientSocket.close()` when the client is OPEN; `deepgramWs.onerror`
first runs `sendError` and then closes the client when it is OPEN. -/
def relayStep (st : RelayState) (ev : RelayEvent) : RelayState :=
  match ev with
  | .clientMessage payload =>
    if st.upstream = .opened then
      { st with toUpstream := st.toUpstream ++ [Frame.data payload] }
    else st
  | .upstreamMessage payload =>
    if st.client = .opened then
      { st with toClient := st.toClient ++ [Frame.data payload] }
    else st
  | .clientClose =>
    { st with client := .closed, upstream := wsClose st.upstream }
  | .clientError =>
    { st with upstream := wsClose st.upstream }
  | .upstreamClose _ =>
    { st with
      upstream := .closed
      client := (if st.client = .opened then wsClose st.client
                 else st.client) }
  | .upstreamError =>
    { st with
      toClient := (sendError st.client st.toClient
        "Deepgram connection error" "DEEPGRAM_ERROR")
      client := (if st.client = .opened then wsClose st.client
                 else st.client) }

/-- The `catch` branch of `handleVoiceAgent` (setup failure, before or during
the wait for the upstream `open` event): `sendError(..., "CONNECTION_FAILED")`,
then `clientSocket.close(3000, "Setup failed")` when the client is OPEN, then
`deepgramWs.close()`. -/
def setupFailure (st : RelayState) (message : String) : RelayState :=
  { st with
    toClient := (sendError st.client st.toClient message "CONNECTION_FAILED")
    client := (if st.client = .opened then wsClose st.client else st.client)
    upstream := wsClose st.upstream }

/-- C5 counterexample to the claim as stated: "whenever either leg closes or
errors, the other leg's close is triggered" fails when the upstream socket
closes (here with code 1011) while the client's upgraded socket is still
CONNECTING: the `deepgramWs.onclose` handler guards `clientSocket.close()`
with `readyState === WebSocket.OPEN`, so the still-CONNECTING client leg is
left exactly as it was — its close is never triggered. -/
theorem relay_coupled_lifetime_counterexample :
    (relayStep
      { client := .connecting, upstream := .opened, toUpstream := [],
        toClient := [] } (.upstreamClose 1011)).client = .connecting
    ∧ (relayStep
      { client := .connecting, upstream := .opened, toUpstream := [],
        toClient := [] } (.upstreamClose 1011)).client ≠ .closing
    ∧ (relayStep
      { client := .connecting, upstream := .opened, toUpstream := [],
        toClient := [] } (.upstreamClose 1011)).client ≠ .closed
    ∧ (relayStep
      { client := .connecting, upstream := .opened, toUpstream := [],
        toClient := [] } .upstreamError).client = .connecting :=
  ⟨by decide, by decide, by decide, by decide⟩

/-- C5 amended: coupled lifetime of the two legs, with the close coupling
exactly as the `readyState === WebSocket.OPEN` guards implement it.
Forwarding is guarded by the destination: a client frame is appended to the
upstream leg only when the upstream socket is OPEN, an upstream frame is
appended to the client leg only when the client socket is OPEN — so once a
destination leg has begun closing no frame is forwarded to it.  A client
close or error always drives the upstream socket into CLOSING/CLOSED.  An
upstream close or error drives the client socket into CLOSING/CLOSED in
every state except when the client's upgraded socket is still CONNECTING
(the pre-open race the counterexample exhibits): there the guarded
`clientSocket.close()` is skipped and the client's readyState is left
unchanged. -/
theorem relay_coupled_lifetime (st : RelayState) (payload : String)
    (code : Nat) :
    ((relayStep st (.clientMessage payload)).toUpstream ≠ st.toUpstream →
      st.upstream = .opened)
    ∧ ((relayStep st (.upstreamMessage payload)).toClient ≠ st.toClient →
      st.client = .opened)
    ∧ ((relayStep st .clientClose).upstream = .closing ∨
       (relayStep st .clientClose).upstream = .closed)
    ∧ ((relayStep st .clientError).upstream = .closing ∨
       (relayStep st .clientError).upstream = .closed)
    ∧ (st.client ≠ .connecting →
      ((relayStep st (.upstreamClose code)).client = .closing ∨
       (relayStep st (.upstreamClose code)).client = .closed))
    ∧ (st.client ≠ .connecting →
      ((relayStep st .upstreamError).client = .closing ∨
       (relayStep st .upstreamError).client = .closed))
    ∧ (st.client = .connecting →
      (relayStep st (.upstreamClose code)).client = .connecting)
    ∧ (st.client = .connecting →
      (relayStep st .upstreamError).client = .connecting) := by
  refine ⟨?_, ?_, ?_, ?_, ?_, ?_, ?_, ?_⟩
  · intro hne
    by_cases h : st.upstream = .opened
    · exact h
    · exact absurd (by simp [relayStep, h]) hne
  · intro hne
    by_cases h : st.client = .opened
    · exact h
    · exact absurd (by simp [relayStep, h]) hne
  · simp only [relayStep]
    cases h : st.upstream <;> simp [wsClose]
  · simp only [relayStep]
    cases h : st.upstream <;> simp [wsClose]
  · intro hc
    simp only [relayStep]
    cases h : st.client <;> simp_all [wsClose]
  · intro hc
    simp only [relayStep]
    cases h : st.client <;> simp_all [wsClose]
  · intro hc
    simp only [relayStep]
    simp [hc]
  · intro hc
    simp only [relayStep]
    simp [hc, sendError]

/-- Witness for C5 (amended): an upstream close on an OPEN client drives the
client into CLOSING. -/
theorem relay_coupled_lifetime_witness :
    (relayStep
      { client := .opened, upstream := .closing, toUpstream := [],
        toClient := [] } (.upstreamClose 1011)).client = .closing :=
  ((relay_coupled_lifetime
      { client := .opened, upstream := .closing, toUpstream := [],
        toClient := [] } "x" 1011).2.2.2.2.1 (by decide)).resolve_right
    (by decide)

/-- C10: `sendError` appends the error frame to the client leg exactly when
the client socket's `readyState` is OPEN, and in every other state sends
nothing; in particular a setup failure occurring while the client socket is
still CONNECTING (an upstream connect failure racing the client's own `open`
event) leaves the client leg without any error frame. -/
theorem sendError_iff_open (socketState : ReadyState) (sent : List Frame)
    (message code : String) (st : RelayState) :
    (socketState = .opened →
      sendError socketState sent message code =
        sent ++ [Frame.errorFrame { type := "Error", description := message,
                                    code := code }])
    ∧ (socketState ≠ .opened →
      sendError socketState sent message code = sent)
    ∧ (st.client = .connecting →
      (setupFailure st message).toClient = st.toClient) := by
  refine ⟨?_, ?_, ?_⟩
  · intro h
    subst h
    rfl
  · intro h
    unfold sendError
    rw [if_neg (by simpa using h)]
  · intro h
    simp only [setupFailure]
    unfold sendError
    rw [if_neg (by simp [h])]

/-- Witness for C10: a CONNECTING client socket receives nothing from
`sendError`, and a setup failure in that state sends no error frame. -/
theorem sendError_iff_open_witness :
    sendError .connecting [] "Failed to connect to Deepgram"
      "CONNECTION_FAILED" = []
    ∧ (setupFailure
        { client := .connecting, upstream := .connecting, toUpstream := [],
          toClient := [] } "Failed to connect to Deepgram").toClient = [] :=
  ⟨(sendError_iff_open .connecting [] "Failed to connect to Deepgram"
      "CONNECTION_FAILED"
      { client := .connecting, upstream := .connecting, toUpstream := [],
        toClient := [] }).2.1 (by decide),
   (sendError_iff_open .connecting [] "Failed to connect to Deepgram"
      "CONNECTION_FAILED"
      { client := .connecting, upstream := .connecting, toUpstream := [],
        toClient := [] }).2.2 rfl⟩

/-! ## `buildDeepgramUrl` and the outbound connection -/

def DEEPGRAM_AGENT_URL : String := "wss://agent.deepgram.com/v1/agent/converse"

/-- `url.searchParams` as the ordered list of decoded key/value pairs. -/
abbrev QueryParams := List (String × String)

/-- `URLSearchParams.prototype.set`: replace the first entry with the key in
place, delete any later entries with the key, or append when absent. -/
def paramsSet (params : QueryParams) (k v : String) : QueryParams :=
  match params with
  | [] => [(k, v)]
  | p :: rest =>
    if p.1 = k then (k, v) :: rest.filter (fun q => q.1 != k)
    else p :: paramsSet rest k v

/-- The loop of `buildDeepgramUrl`: `params.set(key, value)` over every
client-supplied pair, in order, starting from an empty `URLSearchParams`. -/
def forwardParams (queryParams : QueryParams) : QueryParams :=
  queryParams.foldl (fun acc kv => paramsSet acc kv.1 kv.2) []

/-- `URLSearchParams.prototype.toString` at the decoded key/value level. -/
def serializeParams : QueryParams → String
  | [] => ""
  | [p] => p.1 ++ "=" ++ p.2
  | p :: rest => p.1 ++ "=" ++ p.2 ++ "&" ++ serializeParams rest

/-- `buildDeepgramUrl(queryParams)`: the upstream endpoint, with a `?` and
the forwarded query string when it is nonempty. -/
def buildDeepgramUrl (queryParams : QueryParams) : String :=
  let queryString := serializeParams (forwardParams queryParams)
  if queryString = "" then DEEPGRAM_AGENT_URL
  else DEEPGRAM_AGENT_URL ++ "?" ++ queryString

/-- The outbound connection opened by `handleVoiceAgent`:
`new WebSocket(deepgramUrl, ...)` with headers
`Authorization: Token <apiKey>`. -/
structure UpstreamRequest where
  url : String
  authorizationHeader : String
deriving DecidableEq, Repr

/-- The outbound request is a function of the client's query parameters and
the server-held Deepgram API key only; no session token reaches it. -/
def openUpstream (queryParams : QueryParams) (apiKey : String) :
    UpstreamRequest :=
  { url := buildDeepgramUrl queryParams
    authorizationHeader := "Token " ++ apiKey }

theorem paramsSet_append (params : QueryParams) (k v : String)
    (h : ∀ p ∈ params, p.1 ≠ k) :
    paramsSet params k v = params ++ [(k, v)] := by
  induction params with
  | nil => rfl
  | cons p rest ih =>
    simp only [paramsSet]
    rw [if_neg (h p (List.mem_cons_self p rest))]
    rw [ih (fun q hq => h q (List.mem_cons_of_mem p hq))]
    rfl

theorem foldl_paramsSet_nodup (qp : QueryParams) :
    ∀ acc : QueryParams, (((acc ++ qp).map Prod.fst).Nodup) →
      qp.foldl (fun acc2 kv => paramsSet acc2 kv.1 kv.2) acc = acc ++ qp := by
  induction qp with
  | nil =>
    intro acc _
    simp
  | cons kv rest ih =>
    intro acc h
    obtain ⟨k, v⟩ := kv
    have hk : ∀ p ∈ acc, p.1 ≠ k := by
      intro p hp heq
      rw [List.map_append, List.nodup_append] at h
      subst heq
      exact h.2.2 (List.mem_map_of_mem Prod.fst hp) (by simp)
    simp only [List.foldl_cons]
    rw [paramsSet_append acc k v hk]
    rw [ih (acc ++ [(k, v)]) (by simpa [List.append_assoc] using h)]
    simp

/-- C7 counterexample: on the repeated-key input `a=1&a=2` the built URL
keeps only the last value (`params.set` overwrites), so the claim that every
client-supplied pair, including repeated keys, is forwarded verbatim fails. -/
theorem buildDeepgramUrl_repeated_key_counterexample :
    buildDeepgramUrl [("a", "1"), ("a", "2")] =
      "wss://agent.deepgram.com/v1/agent/converse?a=2"
    ∧ buildDeepgramUrl [("a", "1"), ("a", "2")] ≠
        DEEPGRAM_AGENT_URL ++ "?" ++ serializeParams [("a", "1"), ("a", "2")]
    ∧ forwardParams [("a", "1"), ("a", "2")] ≠ [("a", "1"), ("a", "2")] :=
  ⟨by decide, by decide, by decide⟩

/-- C7 amended: when the client's query parameters have pairwise-distinct
keys they are all forwarded verbatim, in order, and the outbound URL is
exactly the upstream endpoint followed by that query string (a repeated key
is collapsed to its last value, as the counterexample shows); the Deepgram
service credential is attached only as the `Authorization: Token <apiKey>`
header of the outbound request, which depends on nothing but the query
parameters and the API key — never the session token. -/
theorem buildDeepgramUrl_amended (queryParams : QueryParams) (apiKey : String)
    (hnodup : (queryParams.map Prod.fst).Nodup) :
    forwardParams queryParams = queryParams
    ∧ buildDeepgramUrl queryParams =
        (if serializeParams queryParams = "" then DEEPGRAM_AGENT_URL
         else DEEPGRAM_AGENT_URL ++ "?" ++ serializeParams queryParams)
    ∧ openUpstream queryParams apiKey =
        { url := buildDeepgramUrl queryParams
          authorizationHeader := "Token " ++ apiKey } := by
  have hfold : forwardParams queryParams = queryParams := by
    have := foldl_paramsSet_nodup queryParams [] (by simpa using hnodup)
    simpa [forwardParams] using this
  refine ⟨hfold, ?_, rfl⟩
  simp only [buildDeepgramUrl, hfold]

/-- Witness for C7 (amended): two distinct keys pass through verbatim. -/
theorem buildDeepgramUrl_amended_witness :
    buildDeepgramUrl [("model", "nova"), ("lang", "en")] =
      "wss://agent.deepgram.com/v1/agent/converse?model=nova&lang=en" :=
  ((buildDeepgramUrl_amended [("model", "nova"), ("lang", "en")] "k"
    (by decide)).2.1).trans (by decide)

/-! ## `generateNonce` and `handleServeIndex` -/

/-- One lowercase hex digit, as produced by `Number.prototype.toString(16)`. -/
def hexDigit (n : Nat) : Char :=
  if n < 10 then Char.ofNat (48 + n) else Char.ofNat (87 + n)

/-- `b.toString(16).padStart(2, "0")` for a byte `b < 256`. -/
def byteToHex (b : Nat) : List Char := [hexDigit (b / 16), hexDigit (b % 16)]

/-- `generateNonce()`: hex encoding of the random bytes delivered by
`crypto.getRandomValues(new Uint8Array(16))`, made an explicit argument. -/
def generateNonce (bytes : List Nat) : String :=
  String.mk ((bytes.map byteToHex).flatten)

/-- Left inverse of `hexDigit` on `0..15`. -/
def hexVal (c : Char) : Nat :=
  if 97 ≤ c.toNat then c.toNat - 87 else c.toNat - 48

/-- Left inverse of the pairwise hex encoding. -/
def decodeHex : List Char → List Nat
  | c1 :: c2 :: rest => (hexVal c1 * 16 + hexVal c2) :: decodeHex rest
  | _ => []

theorem hexVal_hexDigit (n : Nat) (h : n < 16) : hexVal (hexDigit n) = n := by
  interval_cases n <;> decide

theorem decodeHex_encode (bytes : List Nat) (h : ∀ b ∈ bytes, b < 256) :
    decodeHex ((bytes.map byteToHex).flatten) = bytes := by
  induction bytes with
  | nil => rfl
  | cons b rest ih =>
    have hb : b < 256 := h b (List.mem_cons_self b rest)
    show decodeHex
      (hexDigit (b / 16) :: hexDigit (b % 16) :: (rest.map byteToHex).flatten) =
      b :: rest
    simp only [decodeHex]
    rw [hexVal_hexDigit (b / 16) (by omega), hexVal_hexDigit (b % 16) (by omega)]
    rw [ih (fun x hx => h x (List.mem_cons_of_mem b hx))]
    congr 1
    omega

theorem generateNonce_injective (b1 b2 : List Nat)
    (h1 : ∀ b ∈ b1, b < 256) (h2 : ∀ b ∈ b2, b < 256) (hne : b1 ≠ b2) :
    generateNonce b1 ≠ generateNonce b2 := by
  intro heq
  apply hne
  have hdata : (b1.map byteToHex).flatten = (b2.map byteToHex).flatten :=
    congrArg String.data heq
  calc b1 = decodeHex ((b1.map byteToHex).flatten) := (decodeHex_encode b1 h1).symm
    _ = decodeHex ((b2.map byteToHex).flatten) := by rw [hdata]
    _ = b2 := decodeHex_encode b2 h2

/-- `String.prototype.replace(pat, repl)` for a plain search string and a
replacement containing no `$` patterns: replace the first occurrence only,
leave the string unchanged when the pattern does not occur. -/
def replaceFirstChars (pat repl : List Char) : List Char → List Char
  | [] =>
    if pat.isPrefixOf ([] : List Char) then repl ++ ([] : List Char).drop pat.length
    else []
  | c :: rest =>
    if pat.isPrefixOf (c :: rest) then repl ++ (c :: rest).drop pat.length
    else c :: replaceFirstChars pat repl rest

def jsReplaceFirst (s pat repl : String) : String :=
  String.mk (replaceFirstChars pat.data repl.data s.data)

/-- The tag `handleServeIndex` splices in place of `</head>`. -/
def nonceMetaTag (nonce : String) : String :=
  "<meta name=\"session-nonce\" content=\"" ++ nonce ++ "\">\n</head>"

structure IndexResponse where
  status : Nat
  body : String
deriving DecidableEq, Repr

/-- `handleServeIndex()`: 404 when no built frontend template was loaded at
startup; otherwise sweep expired nonces, generate a nonce from the supplied
random bytes, record it with expiry `now + NONCE_TTL_MS`, and serve the
template with the nonce meta tag spliced in before `</head>`.  The two
`Date.now()` calls in the function body are modelled as the single instant
`now`. -/
def handleServeIndex (template : Option String) (randomBytes : List Nat)
    (now : Nat) (store : NonceStore) : IndexResponse × NonceStore :=
  match template with
  | none =>
    ({ status := 404, body := "Frontend not built. Run make build first." },
     store)
  | some tmpl =>
    let store1 := sweepNonces now store
    let nonce := generateNonce randomBytes
    let store2 := storeSet store1 nonce (now + NONCE_TTL_MS)
    ({ status := 200,
       body := jsReplaceFirst tmpl "</head>" (nonceMetaTag nonce) }, store2)

theorem storeGet_storeSet (store : NonceStore) (k : String) (v : Nat) :
    storeGet (storeSet store k v) k = some v := by
  unfold storeSet
  by_cases h : store.any (fun p => p.1 == k)
  · rw [if_pos h]
    induction store with
    | nil => simp at h
    | cons p rest ih =>
      by_cases hp : p.1 == k
      · simp only [List.map_cons, if_pos hp, storeGet, List.find?_cons,
          beq_self_eq_true]
        rfl
      · have hrest : rest.any (fun q => q.1 == k) := by
          simp only [List.any_cons, hp, Bool.false_or] at h
          exact h
        have hp2 : (p.1 == k) = false := by simpa using hp
        simp only [List.map_cons, if_neg hp]
        simp only [storeGet, List.find?_cons, hp2]
        exact ih hrest
  · rw [if_neg h]
    induction store with
    | nil =>
      simp only [List.nil_append, storeGet, List.find?_cons, beq_self_eq_true]
      rfl
    | cons p rest ih =>
      have hp2 : (p.1 == k) = false := by
        cases hx : p.1 == k
        · rfl
        · exact absurd (by simp [List.any_cons, hx]) h
      have hrest : ¬rest.any (fun q => q.1 == k) = true := by
        intro hr
        exact h (by simp [List.any_cons, hr])
      simp only [List.cons_append, storeGet, List.find?_cons, hp2]
      exact ih hrest

theorem replaceFirstChars_of_occurrence (pat repl : List Char)
    (s : List Char) (h : ∃ a b, s = a ++ pat ++ b) :
    ∃ before after, replaceFirstChars pat repl s = before ++ repl ++ after := by
  induction s with
  | nil =>
    obtain ⟨a, b, hab⟩ := h
    have hpat : pat = [] := by
      cases a <;> cases pat <;> simp_all
    refine ⟨[], [], ?_⟩
    simp [replaceFirstChars, hpat, List.isPrefixOf]
  | cons c rest ih =>
    by_cases hp : pat.isPrefixOf (c :: rest)
    · exact ⟨[], (c :: rest).drop pat.length,
        by simp [replaceFirstChars, hp]⟩
    · obtain ⟨a, b, hab⟩ := h
      cases a with
      | nil =>
        exfalso
        apply hp
        rw [List.isPrefixOf_iff_prefix]
        simp only [List.nil_append] at hab
        exact hab ▸ List.prefix_append pat b
      | cons a0 arest =>
        have hc : a0 = c ∧ rest = arest ++ pat ++ b := by
          simp only [List.cons_append, List.cons.injEq] at hab
          exact ⟨hab.1.symm, hab.2⟩
        obtain ⟨before, after, heq⟩ := ih ⟨arest, b, hc.2⟩
        exact ⟨c :: before, after, by
          simp only [replaceFirstChars, if_neg hp, heq, List.cons_append]⟩

/-- C9: serving the bootstrap page with a loaded template always succeeds
(status 200, no failure condition); the store afterwards is the swept store
with the fresh nonce recorded at expiry exactly `now + NONCE_TTL_MS`
(5 minutes), so the nonce's entry is retrievable with that expiry; the nonce
is embedded verbatim in the returned document (inside the injected
`session-nonce` meta tag, provided the template has a `</head>` to splice
at); and the nonce is an injective image of the random bytes, so requests
whose random bytes differ — every prior request, up to RNG collision —
receive distinct nonces. -/
theorem handleServeIndex_spec (tmpl : String) (randomBytes : List Nat)
    (now : Nat) (store : NonceStore)
    (hocc : ∃ a b, tmpl.data = a ++ "</head>".data ++ b) :
    (handleServeIndex (some tmpl) randomBytes now store).1.status = 200
    ∧ (handleServeIndex (some tmpl) randomBytes now store).2 =
        storeSet (sweepNonces now store) (generateNonce randomBytes)
          (now + NONCE_TTL_MS)
    ∧ storeGet (handleServeIndex (some tmpl) randomBytes now store).2
        (generateNonce randomBytes) = some (now + NONCE_TTL_MS)
    ∧ (∃ before after,
        ((handleServeIndex (some tmpl) randomBytes now store).1.body).data =
          before ++ (generateNonce randomBytes).data ++ after)
    ∧ (∀ bytes2, bytes2 ≠ randomBytes → (∀ b ∈ bytes2, b < 256) →
        (∀ b ∈ randomBytes, b < 256) →
        generateNonce bytes2 ≠ generateNonce randomBytes) := by
  refine ⟨rfl, rfl, storeGet_storeSet _ _ _, ?_, ?_⟩
  · obtain ⟨before, after, heq⟩ :=
      replaceFirstChars_of_occurrence "</head>".data
        (nonceMetaTag (generateNonce randomBytes)).data tmpl.data hocc
    refine ⟨before ++ "<meta name=\"session-nonce\" content=\"".data,
      "\">\n</head>".data ++ after, ?_⟩
    show replaceFirstChars "</head>".data
      (nonceMetaTag (generateNonce randomBytes)).data tmpl.data = _
    rw [heq]
    have hdata : (nonceMetaTag (generateNonce randomBytes)).data =
        "<meta name=\"session-nonce\" content=\"".data ++
          (generateNonce randomBytes).data ++ "\">\n</head>".data := by
      simp [nonceMetaTag, String.data_append]
    rw [hdata]
    simp [List.append_assoc]
  · intro bytes2 hne hb2 hb1
    exact generateNonce_injective bytes2 randomBytes hb2 hb1 hne

/-- Witness for C9 at a concrete template and byte string. -/
theorem handleServeIndex_spec_witness :
    (handleServeIndex (some "<html><head></head><body></body></html>")
      [0, 255] 1000 []).1.status = 200 :=
  (handleServeIndex_spec "<html><head></head><body></body></html>"
    [0, 255] 1000 []
    ⟨"<html><head>".data, "<body></body></html>".data, by decide⟩).1

end VoiceAgent
